import Mathlib

set_option maxRecDepth 40000

/-!
Shallow embedding of the receipt-extraction engine of
`src/backend/app/services/ocr_service.py` (class `OCRService`) and the
content-type gate of `src/backend/app/api/v1/endpoints/ocr.py`.
Python floats are modelled as exact rationals; `re.findall` over the five
fixed amount patterns and three fixed date patterns is implemented as
explicit left-to-right scanners with Python's leftmost/greedy semantics.
-/

namespace CC

/-- Python `\s` (ASCII fragment): space, tab, newline, carriage return,
vertical tab, form feed. -/
def isPySpace (c : Char) : Bool :=
  c == ' ' || c == '\t' || c == '\n' || c == '\r' || c == '\x0b' || c == '\x0c'

/-- Python `str.strip()` on a character list. -/
def pyStrip (cs : List Char) : List Char :=
  ((cs.dropWhile isPySpace).reverse.dropWhile isPySpace).reverse

/-- Value of a digit string, as `int()` computes it for `\d+` captures. -/
def natOfDigits (cs : List Char) : Nat :=
  cs.foldl (fun a c => a * 10 + (c.toNat - 48)) 0

/-- Greedy match of `[\d,]+\.?\d*` at the head of the list: the captured
characters and the remainder.  `none` when no leading digit or comma. -/
def matchNumAt (cs : List Char) : Option (List Char × List Char) :=
  let a := cs.takeWhile (fun c => c.isDigit || c == ',')
  let r1 := cs.dropWhile (fun c => c.isDigit || c == ',')
  if a.isEmpty then none
  else
    match r1 with
    | '.' :: r2 => some (a ++ '.' :: r2.takeWhile Char.isDigit, r2.dropWhile Char.isDigit)
    | _ => some (a, r1)

/-- Case-insensitive literal prefix test (`lbl` given lowercase). -/
def ciStartsWith (lbl : List Char) (cs : List Char) : Bool :=
  (cs.take lbl.length).map Char.toLower == lbl

/-- One step of `re.findall`: at the head position try the matcher; on a hit
record the capture and resume after the match, otherwise advance one
character.  Fuel is an upper bound on positions (list length + 1). -/
def scanCapF (m : List Char → Option (String × List Char)) : Nat → List Char → List String
  | 0, _ => []
  | _ + 1, [] => []
  | f + 1, c :: cs =>
    match m (c :: cs) with
    | some (cap, rest) => cap :: scanCapF m f rest
    | none => scanCapF m f cs

/-- Matcher for `\$\s*([\d,]+\.?\d*)` at a fixed position. -/
def matchDollarAt (cs : List Char) : Option (String × List Char) :=
  match cs with
  | '$' :: rest =>
    match matchNumAt (rest.dropWhile isPySpace) with
    | some (cap, r) => some (String.mk cap, r)
    | none => none
  | _ => none

/-- Matcher for `([\d,]+\.?\d*)\s*$` (no MULTILINE): the numeral must be
followed only by whitespace up to the end of the string. -/
def matchEndNumAt (cs : List Char) : Option (String × List Char) :=
  match matchNumAt cs with
  | some (cap, rest) => if rest.all isPySpace then some (String.mk cap, []) else none
  | none => none

/-- Matcher for `LBL[:\s]*\$?\s*([\d,]+\.?\d*)` with IGNORECASE, `lbl` the
lowercased label literal. -/
def matchLabelNumAt (lbl : List Char) (cs : List Char) : Option (String × List Char) :=
  if ciStartsWith lbl cs then
    let r1 := (cs.drop lbl.length).dropWhile (fun c => c == ':' || isPySpace c)
    let r2 := match r1 with | '$' :: t => t | _ => r1
    let r3 := r2.dropWhile isPySpace
    match matchNumAt r3 with
    | some (cap, r) => some (String.mk cap, r)
    | none => none
  else none

/-- `re.findall(pattern, text)` for one of the amount patterns. -/
def findallAmount (m : List Char → Option (String × List Char)) (text : String) : List String :=
  scanCapF m (text.toList.length + 1) text.toList

/-- `raw` ends in `sep` followed by exactly one or two digits
(`re.match(r'.*SEP\d{1,2}$', raw)`). -/
def endsSepDigits (sep : Char) (raw : List Char) : Bool :=
  match raw.reverse with
  | d1 :: c :: rest =>
    if c == sep then d1.isDigit
    else
      match rest with
      | c2 :: _ => d1.isDigit && c.isDigit && c2 == sep
      | [] => false
  | _ => false

/-- The three separator-disambiguation branches of `_extract_amount`
(ocr_service.py lines 388-398), applied to a stripped capture. -/
def normalizeAmount (raw : List Char) : List Char :=
  if raw.any (fun c => c == '.') && endsSepDigits '.' raw then
    raw.filter (fun c => !(c == ','))
  else if raw.any (fun c => c == ',') && endsSepDigits ',' raw && !(raw.any (fun c => c == '.')) then
    (raw.filter (fun c => !(c == '.'))).map (fun c => if c == ',' then '.' else c)
  else
    raw.filter (fun c => !(c == ',' || c == '.'))

/-- The digit/point fragment of Python's `Decimal(str)` constructor: the
strings reaching it here contain only digits and dots.  `none` models a
raised `InvalidOperation`. -/
def decimalParse (cs : List Char) : Option ℚ :=
  if cs.isEmpty then none
  else if cs.all (fun c => c.isDigit || c == '.') && cs.any Char.isDigit then
    if (cs.filter (fun c => c == '.')).length ≤ 1 then
      let ip := cs.takeWhile Char.isDigit
      let rest := cs.dropWhile Char.isDigit
      let fp := match rest with | _ :: t => t | [] => []
      some ((natOfDigits ip : ℚ) + (natOfDigits fp : ℚ) / ((10 : ℚ) ^ fp.length))
    else none
  else none

/-- Confidence attached to a candidate: `0.8 if "total" in pattern.lower()
else 0.6`; only the `Total` pattern contains the letters "total". -/
def amountConf (isTotal : Bool) : ℚ := if isTotal then 4/5 else 3/5

/-- All captures of the five amount patterns in pattern order, each tagged
with whether its pattern's source text contains "total". -/
def amountCaptures (text : String) : List (String × Bool) :=
  ((findallAmount matchDollarAt text).map (fun s => (s, false))) ++
  ((findallAmount matchEndNumAt text).map (fun s => (s, false))) ++
  ((findallAmount (matchLabelNumAt "total".toList) text).map (fun s => (s, true))) ++
  ((findallAmount (matchLabelNumAt "valor".toList) text).map (fun s => (s, false))) ++
  ((findallAmount (matchLabelNumAt "importe".toList) text).map (fun s => (s, false)))

/-- One capture's fate: strip, normalize, parse as `Decimal`, keep when it
passes the plausibility range `100 <= amount <= 10000000` (ocr_service.py
lines 386-410). -/
def candFn : String × Bool → Option (ℚ × Bool)
  | (s, b) =>
    match decimalParse (normalizeAmount (pyStrip s.toList)) with
    | some a => if 100 ≤ a ∧ a ≤ 10000000 then some (a, b) else none
    | none => none

/-- Captures that normalize, parse and pass the plausibility range. -/
def candidatesA (text : String) : List (ℚ × Bool) :=
  (amountCaptures text).filterMap candFn

/-- The accumulator update of `_extract_amount`: replace the best candidate
when none is held or the new amount is strictly larger. -/
def amountStep : Option ℚ × ℚ → ℚ × Bool → Option ℚ × ℚ
  | (none, _), c => (some c.1, amountConf c.2)
  | (some b, bc), c => if b < c.1 then (some c.1, amountConf c.2) else (some b, bc)

/-- Fold of `_extract_amount` over the candidate stream. -/
def amountFromCandidates (l : List (ℚ × Bool)) : Option ℚ × ℚ :=
  l.foldl amountStep ((none : Option ℚ), (0 : ℚ))

/-- `OCRService._extract_amount` (ocr_service.py lines 367-412). -/
def extract_amount (text : String) : Option ℚ × ℚ :=
  amountFromCandidates (candidatesA text)

/-- Exactly `n` digits at the head of the list. -/
def takeDigits (n : Nat) (cs : List Char) : Option (List Char × List Char) :=
  let t := cs.take n
  if t.length = n && t.all Char.isDigit then some (t, cs.drop n) else none

/-- `\d{n}` immediately followed by `[/\-]`. -/
def matchNumSep (n : Nat) (cs : List Char) : Option (List Char × List Char) :=
  match takeDigits n cs with
  | some (d, rest) =>
    match rest with
    | c :: t => if c == '/' || c == '-' then some (d, t) else none
    | [] => none
  | none => none

/-- Greedy `\d{2,4}` with nothing following: take `min(run, 4)` digits,
fail below two. -/
def matchYearAt (cs : List Char) : Option (List Char × List Char) :=
  let run := (cs.takeWhile Char.isDigit).length
  let yl := min run 4
  if 2 ≤ yl then some (cs.take yl, cs.drop yl) else none

/-- Greedy `\d{1,2}` with nothing following. -/
def matchDayEndAt (cs : List Char) : Option (List Char × List Char) :=
  let run := (cs.takeWhile Char.isDigit).length
  let dl := min run 2
  if 1 ≤ dl then some (cs.take dl, cs.drop dl) else none

/-- `(\d{1,2})[/\-](\d{2,4})` tail of the D/M/Y pattern, with the engine's
backtracking from a two-digit to a one-digit month. -/
def matchMYAt (cs : List Char) : Option ((List Char × List Char) × List Char) :=
  match matchNumSep 2 cs with
  | some (m, r) =>
    match matchYearAt r with
    | some (y, r2) => some ((m, y), r2)
    | none =>
      match matchNumSep 1 cs with
      | some (m1, r1) =>
        match matchYearAt r1 with
        | some (y, r2) => some ((m1, y), r2)
        | none => none
      | none => none
  | none =>
    match matchNumSep 1 cs with
    | some (m1, r1) =>
      match matchYearAt r1 with
      | some (y, r2) => some ((m1, y), r2)
      | none => none
    | none => none

/-- `(\d{1,2})[/\-](\d{1,2})[/\-](\d{2,4})` at a fixed position, groups in
capture order. -/
def matchDMYAt (cs : List Char) : Option ((String × String × String) × List Char) :=
  match matchNumSep 2 cs with
  | some (d, r) =>
    match matchMYAt r with
    | some ((m, y), r2) => some ((String.mk d, String.mk m, String.mk y), r2)
    | none =>
      match matchNumSep 1 cs with
      | some (d1, r1) =>
        match matchMYAt r1 with
        | some ((m, y), r2) => some ((String.mk d1, String.mk m, String.mk y), r2)
        | none => none
      | none => none
  | none =>
    match matchNumSep 1 cs with
    | some (d1, r1) =>
      match matchMYAt r1 with
      | some ((m, y), r2) => some ((String.mk d1, String.mk m, String.mk y), r2)
      | none => none
    | none => none

/-- `(\d{4})[/\-](\d{1,2})[/\-](\d{1,2})` at a fixed position, groups in
capture order (year, month, day). -/
def matchYMDAt (cs : List Char) : Option ((String × String × String) × List Char) :=
  match matchNumSep 4 cs with
  | none => none
  | some (y, r) =>
    match matchNumSep 2 r with
    | some (m, r2) =>
      match matchDayEndAt r2 with
      | some (d, r3) => some ((String.mk y, String.mk m, String.mk d), r3)
      | none =>
        match matchNumSep 1 r with
        | some (m1, r2a) =>
          match matchDayEndAt r2a with
          | some (d, r3) => some ((String.mk y, String.mk m1, String.mk d), r3)
          | none => none
        | none => none
    | none =>
      match matchNumSep 1 r with
      | some (m1, r2a) =>
        match matchDayEndAt r2a with
        | some (d, r3) => some ((String.mk y, String.mk m1, String.mk d), r3)
        | none => none
      | none => none

/-- `Fecha[:\s]*(\d{1,2})[/\-](\d{1,2})[/\-](\d{2,4})` with IGNORECASE. -/
def matchFechaAt (cs : List Char) : Option ((String × String × String) × List Char) :=
  if ciStartsWith "fecha".toList cs then
    matchDMYAt ((cs.drop 5).dropWhile (fun c => c == ':' || isPySpace c))
  else none

/-- `re.findall` scanner for a triple-group date matcher. -/
def scanTriF (m : List Char → Option ((String × String × String) × List Char)) :
    Nat → List Char → List (String × String × String)
  | 0, _ => []
  | _ + 1, [] => []
  | f + 1, c :: cs =>
    match m (c :: cs) with
    | some (t, rest) => t :: scanTriF m f rest
    | none => scanTriF m f cs

/-- `re.findall(pattern, text)` for one of the date patterns. -/
def findallDate (m : List Char → Option ((String × String × String) × List Char))
    (text : String) : List (String × String × String) :=
  scanTriF m (text.toList.length + 1) text.toList

/-- All group triples of the three date patterns in pattern order, tagged
with whether the pattern's source text contains "fecha". -/
def dateCandidates (text : String) : List ((String × String × String) × Bool) :=
  ((findallDate matchDMYAt text).map (fun t => (t, false))) ++
  ((findallDate matchYMDAt text).map (fun t => (t, false))) ++
  ((findallDate matchFechaAt text).map (fun t => (t, true)))

/-- Python `str.zfill(2)`. -/
def zfill2 (s : String) : String := if s.length < 2 then "0" ++ s else s

/-- The validation `1 <= int(day) <= 31 and 1 <= int(month) <= 12`
(ocr_service.py line 438). -/
def dateValidB (day month : String) : Bool :=
  decide (1 ≤ natOfDigits day.toList) && decide (natOfDigits day.toList ≤ 31) &&
  decide (1 ≤ natOfDigits month.toList) && decide (natOfDigits month.toList ≤ 12)

/-- `f"{year}-{month.zfill(2)}-{day.zfill(2)}"` after expanding a two-digit
year with the prefix "20" (ocr_service.py lines 434-439). -/
def dateString (day month year0 : String) : String :=
  (if year0.length = 2 then "20" ++ year0 else year0) ++ "-" ++ zfill2 month ++ "-" ++ zfill2 day

/-- The accumulator update of `_extract_date` (ocr_service.py lines
432-444): unpack the groups as `day, month, year` regardless of pattern,
validate, and replace the best date when none is held or the new
confidence is strictly higher. -/
def dateStep (st : Option String × ℚ) (c : (String × String × String) × Bool) :
    Option String × ℚ :=
  if dateValidB c.1.1 c.1.2.1 then
    match st with
    | (none, _) => (some (dateString c.1.1 c.1.2.1 c.1.2.2), if c.2 then 4/5 else 3/5)
    | (some b, bc) =>
      if bc < (if c.2 then (4 : ℚ)/5 else 3/5) then
        (some (dateString c.1.1 c.1.2.1 c.1.2.2), if c.2 then 4/5 else 3/5)
      else (some b, bc)
  else st

/-- `OCRService._extract_date` (ocr_service.py lines 414-449). -/
def extract_date (text : String) : Option String × ℚ :=
  (dateCandidates text).foldl dateStep ((none : Option String), (0 : ℚ))

/-- A stripped line qualifies as a vendor name: length strictly between 3
and 50, no digit, no dollar sign. -/
def vendorQualifies (l : List Char) : Bool :=
  decide (3 < l.length) && decide (l.length < 50) &&
  !(l.any Char.isDigit) && !(l.any (fun c => c == '$'))

/-- The first five lines of the transcript, each stripped. -/
def vendorLines (text : String) : List (List Char) :=
  ((text.splitOn "\n").take 5).map (fun s => pyStrip s.toList)

/-- `OCRService._extract_vendor` (ocr_service.py lines 451-464): first
qualifying stripped line among the first five lines, confidence 0.7. -/
def extract_vendor (text : String) : Option String × ℚ :=
  match (vendorLines text).find? vendorQualifies with
  | some l => (some (String.mk l), 7/10)
  | none => (none, 0)

/-- The fixed category taxonomy of `_suggest_category` in source order. -/
def category_keywords : List (String × List String) :=
  [("food", ["restaurante", "café", "comida", "alimentos", "restaurant", "cafe"]),
   ("transport", ["taxi", "uber", "transporte", "gasolina", "parking"]),
   ("shopping", ["tienda", "compra", "mall", "ropa", "zapatos"]),
   ("health", ["farmacia", "médico", "salud", "medicinas"]),
   ("entertainment", ["cine", "teatro", "concierto", "entretenimiento"]),
   ("utilities", ["servicios", "luz", "agua", "gas", "teléfono"]),
   ("education", ["libros", "curso", "educación", "colegio"])]

/-- Python substring test `needle in hay`. -/
def isSubstr (needle hay : String) : Bool :=
  hay.toList.tails.any (fun t => needle.toList.isPrefixOf t)

/-- Python `str.lower()` (ASCII fragment; the taxonomy keywords are already
lowercase). -/
def pyLower (s : String) : String := String.mk (s.toList.map Char.toLower)

/-- Score of one category: +0.3 per keyword in the transcript, +0.5 per
keyword in the vendor string. -/
def keywordScore (tl vl : String) (kws : List String) : ℚ :=
  kws.foldl (fun s kw =>
    s + (if isSubstr kw tl then (3 : ℚ)/10 else 0) + (if isSubstr kw vl then (1 : ℚ)/2 else 0)) 0

/-- The accumulator update of `_suggest_category`: keep the category with
the strictly largest score. -/
def catStep (st : Option String × ℚ) : String × ℚ → Option String × ℚ
  | (name, score) => if st.2 < score then (some name, score) else st

/-- `vendor.lower() if vendor else ""`. -/
def vendorLower : Option String → String
  | some v => pyLower v
  | none => ""

/-- The best-scoring category over the taxonomy. -/
def catScores (tl vl : String) : Option String × ℚ :=
  category_keywords.foldl
    (fun st ck => catStep st (ck.1, keywordScore tl vl ck.2)) ((none : Option String), (0 : ℚ))

/-- `OCRService._suggest_category` (ocr_service.py lines 466-505); the
`transaction_type` argument is received and unused, as in the source. -/
def suggest_category (text : String) (vendor : Option String) (ttype : String) :
    Option String × ℚ :=
  ((catScores (pyLower text) (vendorLower vendor)).1,
   min (catScores (pyLower text) (vendorLower vendor)).2 (9/10))

/-- The weighted overall-confidence formula shared by
`_parse_receipt_text` (lines 244-249) and `_parse_structured_json`
(lines 309-314). -/
def fuse (a d c v : ℚ) : ℚ := a * (2/5) + d * (3/10) + c * (1/5) + v * (1/10)

/-- The normalized result dictionary both parse paths return (the
`structured_data` passthrough sub-dictionary is omitted: no claim
mentions it). -/
structure ParsedResult where
  amount : Option ℚ
  amount_confidence : ℚ
  transaction_date : Option String
  date_confidence : ℚ
  vendor : Option String
  vendor_confidence : ℚ
  category_suggested : Option String
  category_confidence : ℚ
  confidence : ℚ
  transaction_type : String
  classification : String
deriving DecidableEq

/-- `OCRService._parse_receipt_text`, free-text branch (ocr_service.py
lines 229-263). -/
def parse_receipt_text (text ttype classification : String) : ParsedResult :=
  ⟨(extract_amount text).1, (extract_amount text).2,
   (extract_date text).1, (extract_date text).2,
   (extract_vendor text).1, (extract_vendor text).2,
   (suggest_category text (extract_vendor text).1 ttype).1,
   (suggest_category text (extract_vendor text).1 ttype).2,
   fuse (extract_amount text).2 (extract_date text).2
     (suggest_category text (extract_vendor text).1 ttype).2 (extract_vendor text).2,
   ttype, classification⟩

/-- A JSON numeric-or-string amount value as found under
`transaction.total` / `transaction.subtotal`. -/
inductive JNum where
  | jstr (s : String)
  | jnum (q : ℚ)
deriving DecidableEq

/-- The fields of the structured vision payload that
`_parse_structured_json` reads; an absent key or JSON null is `none`. -/
structure StructuredPayload where
  total : Option JNum
  subtotal : Option JNum
  date : Option String
  merchantName : Option String
  extractedText : String
  confOverall : Option ℚ
  confAmount : Option ℚ
  confDate : Option ℚ
  confMerchant : Option ℚ
deriving DecidableEq

/-- The Decimal-conversion block of `_parse_structured_json` (lines
316-336): strings are comma-stripped, trimmed and parsed; numbers pass
through `Decimal(str(x))` value-preservingly; `none` models the logged,
non-fatal `InvalidOperation`/`ValueError`. -/
def toDecimalOpt : JNum → Option ℚ
  | JNum.jstr s => decimalParse (pyStrip (s.toList.filter (fun c => !(c == ','))))
  | JNum.jnum q => some q

/-- `transaction.get("total")`, falling back to `transaction.get("subtotal")`
when the total is absent (ocr_service.py lines 284-287). -/
def rawAmountOf (j : StructuredPayload) : Option JNum :=
  match j.total with | some x => some x | none => j.subtotal

/-- `OCRService._parse_structured_json` (ocr_service.py lines 265-365). -/
def parse_structured_json (j : StructuredPayload) (ttype classification : String) :
    ParsedResult :=
  ⟨(rawAmountOf j).bind toDecimalOpt,
   j.confAmount.getD (4/5),
   j.date,
   j.confDate.getD (7/10),
   j.merchantName,
   j.confMerchant.getD (4/5),
   (suggest_category j.extractedText j.merchantName ttype).1,
   (suggest_category j.extractedText j.merchantName ttype).2,
   (if j.confOverall.getD (4/5) = 0 then
      fuse (j.confAmount.getD (4/5)) (j.confDate.getD (7/10))
        (suggest_category j.extractedText j.merchantName ttype).2 (j.confMerchant.getD (4/5))
    else j.confOverall.getD (4/5)),
   ttype, classification⟩

/-- An error raised as `OcrProcessingError(code, message)`. -/
structure OcrError where
  code : String
  message : String
deriving DecidableEq

/-- A fallible step outcome. -/
inductive PyResult (α : Type) where
  | error (e : OcrError)
  | ok (a : α)
deriving DecidableEq

/-- The `process_receipt_image` boundary wrap (lines 71-74): any exception
is re-raised as a generic processing error carrying the message. -/
def wrapOcr (e : OcrError) : OcrError :=
  ⟨"OCR_PROCESSING_ERROR", "Error procesando imagen: " ++ e.message⟩

/-- `OCRService._validate_image` (ocr_service.py lines 76-97): the byte
size gate, then decodability by the image codec (`decodable` abstracts
PIL's `Image.open`). -/
def validate_image (maxMB : Nat) (decodable : List Nat → Bool) (img : List Nat) :
    PyResult Unit :=
  if maxMB * 1024 * 1024 < img.length then
    PyResult.error ⟨"IMAGE_SIZE_ERROR", "Imagen demasiado grande"⟩
  else if decodable img then PyResult.ok ()
  else PyResult.error ⟨"INVALID_IMAGE_ERROR", "Imagen invalida o corrupta"⟩

/-- The value returned by `process_receipt_image`. -/
structure OcrResponse where
  extracted_text : String
  parsed_data : ParsedResult
  confidence : ℚ
deriving DecidableEq

/-- `OCRService.process_receipt_image` (ocr_service.py lines 28-74)
together with the JSON-detection routing of `_parse_receipt_text` (lines
218-227).  `vision` abstracts `_extract_text_with_openai` (the base64
encoding is a bijection and is absorbed into it); `jsonParse` abstracts
`json.loads` returning a dict.  The second component records whether the
vision client was invoked. -/
def process_receipt_image (maxMB : Nat) (decodable : List Nat → Bool)
    (vision : List Nat → PyResult String) (jsonParse : String → Option StructuredPayload)
    (img : List Nat) (ttype classification : String) :
    PyResult OcrResponse × Bool :=
  match validate_image maxMB decodable img with
  | PyResult.error e => (PyResult.error (wrapOcr e), false)
  | PyResult.ok _ =>
    match vision img with
    | PyResult.error e => (PyResult.error (wrapOcr e), true)
    | PyResult.ok text =>
      if text = "" then
        (PyResult.error (wrapOcr ⟨"NO_TEXT_EXTRACTED", "No se pudo extraer texto de la imagen"⟩), true)
      else
        let pd := match jsonParse text with
          | some p => parse_structured_json p ttype classification
          | none => parse_receipt_text text ttype classification
        (PyResult.ok ⟨text, pd, pd.confidence⟩, true)

/-- The declared-content-type gate of the `/ocr` endpoint
(api/v1/endpoints/ocr.py line 76): accept when a non-empty content type
starts with "image/". -/
def content_type_accepted (ct : Option String) : Bool :=
  match ct with
  | none => false
  | some s => !(s == "") && ("image/".toList.isPrefixOf s.toList)

/-- `Settings.OCR_ALLOWED_FORMATS` (config.py lines 68-70), read by no
validation code path. -/
def OCR_ALLOWED_FORMATS : List String :=
  ["image/jpeg", "image/png", "image/jpg", "image/webp"]

/-- The field invariant claimed for `ExtractedField`: a missing value
forces confidence 0, and confidence stays in [0, 1]. -/
def fieldInv {α : Type} (v : Option α) (conf : ℚ) : Prop :=
  (v = none → conf = 0) ∧ 0 ≤ conf ∧ conf ≤ 1

/-- Structured payload with every field absent. -/
def emptyPayload : StructuredPayload := ⟨none, none, none, none, "", none, none, none, none⟩

/-- Structured payload whose amount is a non-numeric string. -/
def badAmountPayload : StructuredPayload :=
  ⟨some (JNum.jstr "abc"), none, none, none, "", none, none, none, none⟩

/-- Structured payload reporting `confidence.overall = 0` with the field
confidences individually present. -/
def zeroOverallPayload : StructuredPayload :=
  ⟨none, none, none, none, "", some 0, some (1/2), some (3/10), some (1/5)⟩


/-! ## Helper lemmas -/

theorem amountConf_mem (b : Bool) : amountConf b = 4/5 ∨ amountConf b = 3/5 := by
  cases b
  · right; rfl
  · left; rfl

theorem amountStep_cases (st : Option ℚ × ℚ) (c : ℚ × Bool) :
    amountStep st c = st ∨ amountStep st c = (some c.1, amountConf c.2) := by
  rcases st with ⟨so, sc⟩
  cases so with
  | none => right; rfl
  | some b =>
    by_cases h : b < c.1
    · right; simp [amountStep, h]
    · left; simp [amountStep, h]

theorem amountFold_inv (l : List (ℚ × Bool)) :
    ∀ st : Option ℚ × ℚ, fieldInv st.1 st.2 →
      fieldInv (l.foldl amountStep st).1 (l.foldl amountStep st).2 := by
  induction l with
  | nil => intro st h; exact h
  | cons c tl ih =>
    intro st h
    simp only [List.foldl_cons]
    apply ih
    rcases amountStep_cases st c with he | he
    · rw [he]; exact h
    · rw [he]
      refine ⟨by simp, ?_, ?_⟩
      · rcases amountConf_mem c.2 with h1 | h1 <;> rw [h1] <;> norm_num
      · rcases amountConf_mem c.2 with h1 | h1 <;> rw [h1] <;> norm_num

theorem amountFold_spec (l : List (ℚ × Bool)) :
    ∀ (st : Option ℚ × ℚ) (v c : ℚ), List.foldl amountStep st l = (some v, c) →
      ((some v, c) = st ∨ ∃ b, (v, b) ∈ l ∧ c = amountConf b) ∧
      (∀ p ∈ l, p.1 ≤ v) ∧ (∀ w, st.1 = some w → w ≤ v) := by
  induction l with
  | nil =>
    intro st v c h
    simp only [List.foldl_nil] at h
    subst h
    exact ⟨Or.inl rfl, fun p hp => absurd hp (List.not_mem_nil p),
      fun w hw => le_of_eq (Option.some.inj hw).symm⟩
  | cons hd tl ih =>
    intro st v c h
    simp only [List.foldl_cons] at h
    obtain ⟨h1, h2, h3⟩ := ih (amountStep st hd) v c h
    rcases st with ⟨so, sc⟩
    cases so with
    | none =>
      have hs : amountStep ((none : Option ℚ), sc) hd = (some hd.1, amountConf hd.2) := rfl
      rw [hs] at h1 h3
      have hhd : hd.1 ≤ v := h3 hd.1 rfl
      refine ⟨?_, ?_, ?_⟩
      · rcases h1 with he | ⟨b, hb, hc⟩
        · right
          have hv : v = hd.1 := Option.some.inj (congrArg Prod.fst he)
          have hcc : c = amountConf hd.2 := congrArg Prod.snd he
          exact ⟨hd.2, by rw [hv, Prod.mk.eta]; exact List.mem_cons_self _ _, hcc⟩
        · exact Or.inr ⟨b, List.mem_cons_of_mem _ hb, hc⟩
      · intro p hp
        rcases List.mem_cons.mp hp with hp | hp
        · rw [hp]; exact hhd
        · exact h2 p hp
      · intro w hw; cases hw
    | some b0 =>
      by_cases hlt : b0 < hd.1
      · have hs : amountStep (some b0, sc) hd = (some hd.1, amountConf hd.2) := by
          simp [amountStep, hlt]
        rw [hs] at h1 h3
        have hhd : hd.1 ≤ v := h3 hd.1 rfl
        refine ⟨?_, ?_, ?_⟩
        · rcases h1 with he | ⟨b, hb, hc⟩
          · right
            have hv : v = hd.1 := Option.some.inj (congrArg Prod.fst he)
            have hcc : c = amountConf hd.2 := congrArg Prod.snd he
            exact ⟨hd.2, by rw [hv, Prod.mk.eta]; exact List.mem_cons_self _ _, hcc⟩
          · exact Or.inr ⟨b, List.mem_cons_of_mem _ hb, hc⟩
        · intro p hp
          rcases List.mem_cons.mp hp with hp | hp
          · rw [hp]; exact hhd
          · exact h2 p hp
        · intro w hw
          have hwb : b0 = w := Option.some.inj hw
          exact le_trans (le_of_lt (hwb ▸ hlt)) hhd
      · have hs : amountStep (some b0, sc) hd = (some b0, sc) := by
          simp [amountStep, hlt]
        rw [hs] at h1 h3
        have hb0 : b0 ≤ v := h3 b0 rfl
        refine ⟨?_, ?_, ?_⟩
        · rcases h1 with he | ⟨b, hb, hc⟩
          · exact Or.inl he
          · exact Or.inr ⟨b, List.mem_cons_of_mem _ hb, hc⟩
        · intro p hp
          rcases List.mem_cons.mp hp with hp | hp
          · rw [hp]; exact le_trans (not_lt.mp hlt) hb0
          · exact h2 p hp
        · intro w hw
          have hwb : b0 = w := Option.some.inj hw
          exact hwb ▸ hb0

theorem extract_amount_inv (text : String) :
    fieldInv (extract_amount text).1 (extract_amount text).2 :=
  amountFold_inv (candidatesA text) ((none : Option ℚ), (0 : ℚ))
    ⟨fun _ => rfl, le_refl 0, by norm_num⟩

theorem dateStep_cases (st : Option String × ℚ) (c : (String × String × String) × Bool) :
    dateStep st c = st ∨
    dateStep st c = (some (dateString c.1.1 c.1.2.1 c.1.2.2), if c.2 then (4 : ℚ)/5 else 3/5) := by
  unfold dateStep
  by_cases hv : dateValidB c.1.1 c.1.2.1 = true
  · rw [if_pos hv]
    rcases st with ⟨so, sc⟩
    cases so with
    | none => right; rfl
    | some b =>
      by_cases hc : sc < (if c.2 then (4 : ℚ)/5 else 3/5)
      · right; simp [hc]
      · left; simp [hc]
  · left; rw [if_neg hv]

theorem dateFold_inv (l : List ((String × String × String) × Bool)) :
    ∀ st : Option String × ℚ, fieldInv st.1 st.2 →
      fieldInv (l.foldl dateStep st).1 (l.foldl dateStep st).2 := by
  induction l with
  | nil => intro st h; exact h
  | cons c tl ih =>
    intro st h
    simp only [List.foldl_cons]
    apply ih
    rcases dateStep_cases st c with he | he
    · rw [he]; exact h
    · rw [he]
      refine ⟨by simp, ?_, ?_⟩
      · by_cases hb : c.2 <;> simp [hb] <;> norm_num
      · by_cases hb : c.2 <;> simp [hb] <;> norm_num

theorem extract_date_inv (text : String) :
    fieldInv (extract_date text).1 (extract_date text).2 :=
  dateFold_inv (dateCandidates text) ((none : Option String), (0 : ℚ))
    ⟨fun _ => rfl, le_refl 0, by norm_num⟩

theorem extract_vendor_inv (text : String) :
    fieldInv (extract_vendor text).1 (extract_vendor text).2 := by
  unfold extract_vendor
  rcases hf : (vendorLines text).find? vendorQualifies with _ | l
  · exact ⟨fun _ => rfl, le_refl 0, by norm_num⟩
  · exact ⟨fun h => Option.noConfusion h, by norm_num, by norm_num⟩

theorem keywordScore_fold_mono (tl vl : String) (kws : List String) :
    ∀ s : ℚ, s ≤ kws.foldl (fun s kw =>
      s + (if isSubstr kw tl then (3 : ℚ)/10 else 0) + (if isSubstr kw vl then (1 : ℚ)/2 else 0)) s := by
  induction kws with
  | nil => intro s; exact le_refl s
  | cons kw rest ih =>
    intro s
    simp only [List.foldl_cons]
    refine le_trans ?_ (ih _)
    have ha : (0 : ℚ) ≤ (if isSubstr kw tl then (3 : ℚ)/10 else 0) := by
      split <;> norm_num
    have hb : (0 : ℚ) ≤ (if isSubstr kw vl then (1 : ℚ)/2 else 0) := by
      split <;> norm_num
    linarith

theorem keywordScore_nonneg (tl vl : String) (kws : List String) :
    0 ≤ keywordScore tl vl kws :=
  keywordScore_fold_mono tl vl kws 0

theorem catFold_inv (tl vl : String) (cats : List (String × List String)) :
    ∀ st : Option String × ℚ, ((st.1 = none → st.2 = 0) ∧ 0 ≤ st.2) →
      (((cats.foldl (fun st ck => catStep st (ck.1, keywordScore tl vl ck.2)) st).1 = none →
        (cats.foldl (fun st ck => catStep st (ck.1, keywordScore tl vl ck.2)) st).2 = 0) ∧
       0 ≤ (cats.foldl (fun st ck => catStep st (ck.1, keywordScore tl vl ck.2)) st).2) := by
  induction cats with
  | nil => intro st h; exact h
  | cons ck rest ih =>
    intro st h
    simp only [List.foldl_cons]
    apply ih
    simp only [catStep]
    by_cases hlt : st.2 < keywordScore tl vl ck.2
    · rw [if_pos hlt]
      exact ⟨fun h2 => Option.noConfusion h2, keywordScore_nonneg tl vl ck.2⟩
    · rw [if_neg hlt]
      exact h

theorem catScores_inv (tl vl : String) :
    ((catScores tl vl).1 = none → (catScores tl vl).2 = 0) ∧ 0 ≤ (catScores tl vl).2 :=
  catFold_inv tl vl category_keywords ((none : Option String), (0 : ℚ))
    ⟨fun _ => rfl, le_refl 0⟩

theorem suggest_category_inv (text : String) (vendor : Option String) (ttype : String) :
    fieldInv (suggest_category text vendor ttype).1 (suggest_category text vendor ttype).2 := by
  have h := catScores_inv (pyLower text) (vendorLower vendor)
  refine ⟨fun hn => ?_, ?_, ?_⟩
  · show min (catScores (pyLower text) (vendorLower vendor)).2 (9/10) = 0
    rw [h.1 hn]
    exact min_eq_left (by norm_num)
  · exact le_min h.2 (by norm_num)
  · exact le_trans (min_le_right _ _) (by norm_num)

theorem dateValidB_iff (d m : String) :
    dateValidB d m = true ↔
      (1 ≤ natOfDigits d.toList ∧ natOfDigits d.toList ≤ 31 ∧
       1 ≤ natOfDigits m.toList ∧ natOfDigits m.toList ≤ 12) := by
  unfold dateValidB
  simp [Bool.and_eq_true, decide_eq_true_eq, and_assoc]

/-! ## Concrete evaluations of the amount extractor -/

theorem dp45000 : decimalParse "45000".toList = some (45000 : ℚ) := by
  rw [show decimalParse "45000".toList =
      some (((45000 : ℕ) : ℚ) + ((0 : ℕ) : ℚ) / (10 : ℚ) ^ (0 : ℕ)) from rfl]
  norm_num

theorem dp38393 : decimalParse "38393.00".toList = some (38393 : ℚ) := by
  rw [show decimalParse "38393.00".toList =
      some (((38393 : ℕ) : ℚ) + ((0 : ℕ) : ℚ) / (10 : ℚ) ^ (2 : ℕ)) from rfl]
  norm_num

theorem dp200 : decimalParse "200".toList = some (200 : ℚ) := by
  rw [show decimalParse "200".toList =
      some (((200 : ℕ) : ℚ) + ((0 : ℕ) : ℚ) / (10 : ℚ) ^ (0 : ℕ)) from rfl]
  norm_num

theorem dp300 : decimalParse "300".toList = some (300 : ℚ) := by
  rw [show decimalParse "300".toList =
      some (((300 : ℕ) : ℚ) + ((0 : ℕ) : ℚ) / (10 : ℚ) ^ (0 : ℕ)) from rfl]
  norm_num

theorem candFn_some (s : String) (b : Bool) (a : ℚ)
    (h : decimalParse (normalizeAmount (pyStrip s.toList)) = some a)
    (h2 : 100 ≤ a) (h3 : a ≤ 10000000) :
    candFn (s, b) = some (a, b) := by
  simp only [candFn]
  rw [h]
  show (if 100 ≤ a ∧ a ≤ 10000000 then some (a, b) else none) = some (a, b)
  rw [if_pos ⟨h2, h3⟩]

theorem cf_dot45 : candFn ("45.000", false) = some (45000, false) :=
  candFn_some _ _ _
    (by rw [show normalizeAmount (pyStrip "45.000".toList) = "45000".toList from by decide]
        exact dp45000)
    (by norm_num) (by norm_num)

theorem cf_comma45 : candFn ("45,000", false) = some (45000, false) :=
  candFn_some _ _ _
    (by rw [show normalizeAmount (pyStrip "45,000".toList) = "45000".toList from by decide]
        exact dp45000)
    (by norm_num) (by norm_num)

theorem cf_plain45 : candFn ("45000", false) = some (45000, false) :=
  candFn_some _ _ _
    (by rw [show normalizeAmount (pyStrip "45000".toList) = "45000".toList from by decide]
        exact dp45000)
    (by norm_num) (by norm_num)

theorem cf_38393 : candFn ("38,393.00", false) = some (38393, false) :=
  candFn_some _ _ _
    (by rw [show normalizeAmount (pyStrip "38,393.00".toList) = "38393.00".toList from by decide]
        exact dp38393)
    (by norm_num) (by norm_num)

theorem cf_200f : candFn ("200", false) = some (200, false) :=
  candFn_some _ _ _
    (by rw [show normalizeAmount (pyStrip "200".toList) = "200".toList from by decide]
        exact dp200)
    (by norm_num) (by norm_num)

theorem cf_300f : candFn ("300", false) = some (300, false) :=
  candFn_some _ _ _
    (by rw [show normalizeAmount (pyStrip "300".toList) = "300".toList from by decide]
        exact dp300)
    (by norm_num) (by norm_num)

theorem cf_200t : candFn ("200", true) = some (200, true) :=
  candFn_some _ _ _
    (by rw [show normalizeAmount (pyStrip "200".toList) = "200".toList from by decide]
        exact dp200)
    (by norm_num) (by norm_num)

theorem ea_dollar : extract_amount "$45.000" = (some 45000, 3/5) := by
  show amountFromCandidates (candidatesA "$45.000") = (some 45000, 3/5)
  rw [show candidatesA "$45.000" =
      List.filterMap candFn [("45.000", false), ("45.000", false)] from
    congrArg (List.filterMap candFn)
      (by decide : amountCaptures "$45.000" = [("45.000", false), ("45.000", false)])]
  simp only [List.filterMap_cons, List.filterMap_nil, cf_dot45]
  unfold amountFromCandidates
  simp only [List.foldl_cons, List.foldl_nil, amountStep]
  norm_num [amountConf]

theorem ea_comma : extract_amount "45,000" = (some 45000, 3/5) := by
  show amountFromCandidates (candidatesA "45,000") = (some 45000, 3/5)
  rw [show candidatesA "45,000" = List.filterMap candFn [("45,000", false)] from
    congrArg (List.filterMap candFn)
      (by decide : amountCaptures "45,000" = [("45,000", false)])]
  simp only [List.filterMap_cons, List.filterMap_nil, cf_comma45]
  unfold amountFromCandidates
  simp only [List.foldl_cons, List.foldl_nil, amountStep]
  rfl

theorem ea_plain : extract_amount "45000" = (some 45000, 3/5) := by
  show amountFromCandidates (candidatesA "45000") = (some 45000, 3/5)
  rw [show candidatesA "45000" = List.filterMap candFn [("45000", false)] from
    congrArg (List.filterMap candFn)
      (by decide : amountCaptures "45000" = [("45000", false)])]
  simp only [List.filterMap_cons, List.filterMap_nil, cf_plain45]
  unfold amountFromCandidates
  simp only [List.foldl_cons, List.foldl_nil, amountStep]
  rfl

theorem ea_38393 : extract_amount "38,393.00" = (some 38393, 3/5) := by
  show amountFromCandidates (candidatesA "38,393.00") = (some 38393, 3/5)
  rw [show candidatesA "38,393.00" = List.filterMap candFn [("38,393.00", false)] from
    congrArg (List.filterMap candFn)
      (by decide : amountCaptures "38,393.00" = [("38,393.00", false)])]
  simp only [List.filterMap_cons, List.filterMap_nil, cf_38393]
  unfold amountFromCandidates
  simp only [List.foldl_cons, List.foldl_nil, amountStep]
  rfl

theorem ea_totalmix : extract_amount "Total: $200 y $300" = (some 300, 3/5) := by
  show amountFromCandidates (candidatesA "Total: $200 y $300") = (some 300, 3/5)
  rw [show candidatesA "Total: $200 y $300" =
      List.filterMap candFn [("200", false), ("300", false), ("300", false), ("200", true)] from
    congrArg (List.filterMap candFn)
      (by decide : amountCaptures "Total: $200 y $300" =
        [("200", false), ("300", false), ("300", false), ("200", true)])]
  simp only [List.filterMap_cons, List.filterMap_nil, cf_200f, cf_300f, cf_200t]
  unfold amountFromCandidates
  simp only [List.foldl_cons, List.foldl_nil, amountStep]
  norm_num [amountConf]

theorem ea_valor : extract_amount "VALOR: 45000" = (some 45000, 3/5) := by
  show amountFromCandidates (candidatesA "VALOR: 45000") = (some 45000, 3/5)
  rw [show candidatesA "VALOR: 45000" =
      List.filterMap candFn [("45000", false), ("45000", false)] from
    congrArg (List.filterMap candFn)
      (by decide : amountCaptures "VALOR: 45000" = [("45000", false), ("45000", false)])]
  simp only [List.filterMap_cons, List.filterMap_nil, cf_plain45]
  unfold amountFromCandidates
  simp only [List.foldl_cons, List.foldl_nil, amountStep]
  norm_num [amountConf]

/-! ## Concrete evaluations of the date extractor -/

theorem ed_dmy : extract_date "27/10/2025" = (some "2025-10-27", 3/5) := by
  unfold extract_date
  rw [show dateCandidates "27/10/2025" = [(("27", "10", "2025"), false)] from by decide]
  simp only [List.foldl_cons, List.foldl_nil, dateStep]
  rw [show dateValidB "27" "10" = true from by decide]
  simp only [if_true]
  rw [show dateString "27" "10" "2025" = "2025-10-27" from by decide]
  simp

theorem ed_fecha : extract_date "Fecha: 27/10/2025" = (some "2025-10-27", 4/5) := by
  unfold extract_date
  rw [show dateCandidates "Fecha: 27/10/2025" =
      [(("27", "10", "2025"), false), (("27", "10", "2025"), true)] from by decide]
  simp only [List.foldl_cons, List.foldl_nil, dateStep]
  rw [show dateValidB "27" "10" = true from by decide]
  rw [show dateString "27" "10" "2025" = "2025-10-27" from by decide]
  norm_num

theorem ed_day45 : extract_date "45/10/2025" = (none, 0) := by
  unfold extract_date
  rw [show dateCandidates "45/10/2025" = [(("45", "10", "2025"), false)] from by decide]
  simp only [List.foldl_cons, List.foldl_nil, dateStep]
  rw [show dateValidB "45" "10" = false from by decide]
  simp

theorem ed_month13 : extract_date "31/13/2025" = (none, 0) := by
  unfold extract_date
  rw [show dateCandidates "31/13/2025" = [(("31", "13", "2025"), false)] from by decide]
  simp only [List.foldl_cons, List.foldl_nil, dateStep]
  rw [show dateValidB "31" "13" = false from by decide]
  simp

theorem ed_yy : extract_date "27/10/25" = (some "2025-10-27", 3/5) := by
  unfold extract_date
  rw [show dateCandidates "27/10/25" = [(("27", "10", "25"), false)] from by decide]
  simp only [List.foldl_cons, List.foldl_nil, dateStep]
  rw [show dateValidB "27" "10" = true from by decide]
  simp only [if_true]
  rw [show dateString "27" "10" "25" = "2025-10-27" from by decide]
  simp

theorem ed_ymd : extract_date "2025-10-27" = (some "2027-10-25", 3/5) := by
  unfold extract_date
  rw [show dateCandidates "2025-10-27" =
      [(("25", "10", "27"), false), (("2025", "10", "27"), false)] from by decide]
  simp only [List.foldl_cons, List.foldl_nil, dateStep]
  rw [show dateValidB "25" "10" = true from by decide]
  rw [show dateValidB "2025" "10" = false from by decide]
  rw [show dateString "25" "10" "27" = "2027-10-25" from by decide]
  simp

theorem ed_feb31 : extract_date "31/02/2025" = (some "2025-02-31", 3/5) := by
  unfold extract_date
  rw [show dateCandidates "31/02/2025" = [(("31", "02", "2025"), false)] from by decide]
  simp only [List.foldl_cons, List.foldl_nil, dateStep]
  rw [show dateValidB "31" "02" = true from by decide]
  simp only [if_true]
  rw [show dateString "31" "02" "2025" = "2025-02-31" from by decide]
  simp

/-! ## Claim theorems -/

/-- Claim C1: the thousands-separator formats "$45.000", "45,000" and
"45000" all extract as amount 45000 with confidence 0.6 (hence at least
0.6), "38,393.00" extracts as exactly 38393.00 and not 3839300, and the
three separator-disambiguation rules act in order on the raw captures. -/
theorem c1_amount_formats :
    extract_amount "$45.000" = (some 45000, 3/5) ∧
    extract_amount "45,000" = (some 45000, 3/5) ∧
    extract_amount "45000" = (some 45000, 3/5) ∧
    extract_amount "38,393.00" = (some 38393, 3/5) ∧
    normalizeAmount "38,393.00".toList = "38393.00".toList ∧
    normalizeAmount "45.000".toList = "45000".toList ∧
    normalizeAmount "123,45".toList = "123.45".toList :=
  ⟨ea_dollar, ea_comma, ea_plain, ea_38393, by decide, by decide, by decide⟩

/-- Claim C2 counterexample: the claimed concrete value
`fuse(0.8, 0.8, 0.85, 0.9) = 0.79` is off — the weighted sum is 0.82, not
within 1e-9 of 0.79. -/
theorem c2_counterexample :
    fuse (4/5) (4/5) (17/20) (9/10) = 41/50 ∧
    ¬ |fuse (4/5) (4/5) (17/20) (9/10) - 79/100| ≤ 1/1000000000 := by
  have h : fuse (4/5) (4/5) (17/20) (9/10) = 41/50 := by unfold fuse; norm_num
  refine ⟨h, ?_⟩
  rw [h]
  rw [show |(41 : ℚ)/50 - 79/100| = 3/100 from by
    rw [show (41 : ℚ)/50 - 79/100 = 3/100 from by norm_num]
    exact abs_of_pos (by norm_num)]
  norm_num

/-- Claim C2 as amended: `fuse(0.8, 0.8, 0.85, 0.9) = 0.82`; the free-text
overall confidence is the weighted fusion of the four field confidences;
and a structured payload carrying `confidence.overall = 0` with the field
confidences present has its overall recomputed by the same formula. -/
theorem c2_amended :
    fuse (4/5) (4/5) (17/20) (9/10) = 41/50 ∧
    (∀ text ttype classification,
      (parse_receipt_text text ttype classification).confidence =
        fuse (extract_amount text).2 (extract_date text).2
          (suggest_category text (extract_vendor text).1 ttype).2 (extract_vendor text).2) ∧
    (∀ (j : StructuredPayload) (ttype classification : String) (a d v : ℚ),
      j.confOverall = some 0 → j.confAmount = some a → j.confDate = some d →
      j.confMerchant = some v →
      (parse_structured_json j ttype classification).confidence =
        fuse a d (suggest_category j.extractedText j.merchantName ttype).2 v) := by
  refine ⟨by unfold fuse; norm_num, fun text ttype classification => rfl, ?_⟩
  intro j ttype classification a d v h0 ha hd hv
  simp [parse_structured_json, h0, ha, hd, hv]

/-- Claim C2 witness: the amended statement applied to a concrete payload
with `confidence.overall = 0`. -/
theorem c2_witness :
    (parse_structured_json zeroOverallPayload "expense" "personal").confidence =
      fuse (1/2) (3/10)
        (suggest_category zeroOverallPayload.extractedText zeroOverallPayload.merchantName
          "expense").2 (1/5) :=
  c2_amended.2.2 zeroOverallPayload "expense" "personal" (1/2) (3/10) (1/5) rfl rfl rfl rfl

/-- Claim C3 counterexample: with a Total-labeled 200 present, the larger
unlabeled 300 is selected at confidence 0.6 (the claim demands the labeled
candidate at 0.8); and a VALOR-labeled amount gets confidence 0.6, not the
claimed 0.8, because only the Total pattern's text contains "total". -/
theorem c3_counterexample :
    extract_amount "Total: $200 y $300" = (some 300, 3/5) ∧
    ¬ extract_amount "Total: $200 y $300" = (some 200, 4/5) ∧
    extract_amount "VALOR: 45000" = (some 45000, 3/5) ∧
    ¬ extract_amount "VALOR: 45000" = (some 45000, 4/5) := by
  refine ⟨ea_totalmix, ?_, ea_valor, ?_⟩
  · intro h
    rw [ea_totalmix, Prod.mk.injEq] at h
    exact absurd (Option.some.inj h.1) (by norm_num)
  · intro h
    rw [ea_valor, Prod.mk.injEq] at h
    exact absurd h.2 (by norm_num)

/-- Claim C3 as amended: the extractor keeps the overall largest plausible
candidate regardless of label (ties keep the earlier candidate); its
confidence is 0.8 exactly when the kept candidate came from the
Total-labeled pattern and 0.6 otherwise (VALOR/Importe included); no
surviving candidate yields `(None, 0.0)`. -/
theorem c3_amended :
    (∀ text, candidatesA text = [] → extract_amount text = (none, 0)) ∧
    (∀ text v c, extract_amount text = (some v, c) →
      (∃ b, (v, b) ∈ candidatesA text ∧ c = amountConf b) ∧
      ∀ p ∈ candidatesA text, p.1 ≤ v) ∧
    extract_amount "Total: $200 y $300" = (some 300, 3/5) ∧
    extract_amount "VALOR: 45000" = (some 45000, 3/5) := by
  refine ⟨?_, ?_, ea_totalmix, ea_valor⟩
  · intro text h
    show amountFromCandidates (candidatesA text) = (none, 0)
    rw [h]
    rfl
  · intro text v c h
    have h' : List.foldl amountStep ((none : Option ℚ), (0 : ℚ)) (candidatesA text) =
        (some v, c) := h
    obtain ⟨h1, h2, _⟩ := amountFold_spec (candidatesA text) ((none : Option ℚ), (0 : ℚ)) v c h'
    rcases h1 with he | hex
    · exact absurd (congrArg Prod.fst he) (by simp)
    · exact ⟨hex, h2⟩

/-- Claim C3 witness: the amended maximality statement instantiated on a
concrete transcript. -/
theorem c3_witness :
    (∃ b, ((45000 : ℚ), b) ∈ candidatesA "VALOR: 45000" ∧ (3 : ℚ)/5 = amountConf b) ∧
    ∀ p ∈ candidatesA "VALOR: 45000", p.1 ≤ (45000 : ℚ) :=
  c3_amended.2.1 "VALOR: 45000" 45000 (3/5) c3_amended.2.2.2

/-- Claim C4 counterexample: when Decimal conversion of the structured
amount fails, the amount value becomes None but the amount confidence
stays at the payload default 0.8 — the field is not `(None, 0.0)`. -/
theorem c4_counterexample :
    (parse_structured_json badAmountPayload "expense" "personal").amount = none ∧
    (parse_structured_json badAmountPayload "expense" "personal").amount_confidence = 4/5 ∧
    ¬ (parse_structured_json badAmountPayload "expense" "personal").amount_confidence = 0 := by
  refine ⟨rfl, rfl, ?_⟩
  intro h
  rw [show (parse_structured_json badAmountPayload "expense" "personal").amount_confidence =
      4/5 from rfl] at h
  norm_num at h

/-- Claim C4 as amended: a failed Decimal conversion degrades only the
amount value to None; the failure is non-fatal and the remaining fields
are still produced; the amount confidence is left at the payload's (or
default) amount confidence rather than reset to 0.0. -/
theorem c4_amended (j : StructuredPayload) (ttype classification : String) (r : JNum)
    (h1 : rawAmountOf j = some r) (h2 : toDecimalOpt r = none) :
    (parse_structured_json j ttype classification).amount = none ∧
    (parse_structured_json j ttype classification).amount_confidence = j.confAmount.getD (4/5) ∧
    (parse_structured_json j ttype classification).transaction_date = j.date ∧
    (parse_structured_json j ttype classification).vendor = j.merchantName := by
  refine ⟨?_, rfl, rfl, rfl⟩
  show (rawAmountOf j).bind toDecimalOpt = none
  rw [h1]
  simpa using h2

/-- Claim C4 witness: the amended statement applied to a payload whose
amount is the unparseable string "abc". -/
theorem c4_witness :
    (parse_structured_json badAmountPayload "expense" "personal").amount = none ∧
    (parse_structured_json badAmountPayload "expense" "personal").amount_confidence =
      badAmountPayload.confAmount.getD (4/5) ∧
    (parse_structured_json badAmountPayload "expense" "personal").transaction_date =
      badAmountPayload.date ∧
    (parse_structured_json badAmountPayload "expense" "personal").vendor =
      badAmountPayload.merchantName :=
  c4_amended badAmountPayload "expense" "personal" (JNum.jstr "abc") rfl rfl

/-- Claim C5 counterexample: the structured path violates the claimed
invariant — an absent amount keeps the default confidence 0.8, so a None
value carries a positive confidence. -/
theorem c5_counterexample :
    (parse_structured_json emptyPayload "expense" "personal").amount = none ∧
    (parse_structured_json emptyPayload "expense" "personal").amount_confidence = 4/5 ∧
    ¬ fieldInv (parse_structured_json emptyPayload "expense" "personal").amount
        (parse_structured_json emptyPayload "expense" "personal").amount_confidence := by
  refine ⟨rfl, rfl, ?_⟩
  intro h
  have h0 := h.1 rfl
  rw [show (parse_structured_json emptyPayload "expense" "personal").amount_confidence =
      4/5 from rfl] at h0
  norm_num at h0

/-- Claim C5 as amended: on the free-text path every extracted field
satisfies the invariant (a None value forces confidence 0, and every
confidence lies in [0,1]); the structured path does not guarantee it. -/
theorem c5_amended (text ttype classification : String) :
    fieldInv (parse_receipt_text text ttype classification).amount
      (parse_receipt_text text ttype classification).amount_confidence ∧
    fieldInv (parse_receipt_text text ttype classification).transaction_date
      (parse_receipt_text text ttype classification).date_confidence ∧
    fieldInv (parse_receipt_text text ttype classification).vendor
      (parse_receipt_text text ttype classification).vendor_confidence ∧
    fieldInv (parse_receipt_text text ttype classification).category_suggested
      (parse_receipt_text text ttype classification).category_confidence :=
  ⟨extract_amount_inv text, extract_date_inv text, extract_vendor_inv text,
   suggest_category_inv text (extract_vendor text).1 ttype⟩

/-- Claim C5 witness: the free-text invariant instantiated on a concrete
transcript. -/
theorem c5_witness :
    fieldInv (parse_receipt_text "RESTAURANTE EJEMPLO\nTOTAL: $45.000" "expense" "personal").amount
      (parse_receipt_text "RESTAURANTE EJEMPLO\nTOTAL: $45.000" "expense" "personal").amount_confidence ∧
    fieldInv (parse_receipt_text "RESTAURANTE EJEMPLO\nTOTAL: $45.000" "expense" "personal").transaction_date
      (parse_receipt_text "RESTAURANTE EJEMPLO\nTOTAL: $45.000" "expense" "personal").date_confidence ∧
    fieldInv (parse_receipt_text "RESTAURANTE EJEMPLO\nTOTAL: $45.000" "expense" "personal").vendor
      (parse_receipt_text "RESTAURANTE EJEMPLO\nTOTAL: $45.000" "expense" "personal").vendor_confidence ∧
    fieldInv (parse_receipt_text "RESTAURANTE EJEMPLO\nTOTAL: $45.000" "expense" "personal").category_suggested
      (parse_receipt_text "RESTAURANTE EJEMPLO\nTOTAL: $45.000" "expense" "personal").category_confidence :=
  c5_amended "RESTAURANTE EJEMPLO\nTOTAL: $45.000" "expense" "personal"

/-- Claim C6: "27/10/2025" extracts as "2025-10-27" at confidence 0.6 and
"Fecha: 27/10/2025" at 0.8; a day outside [1,31] or a month outside [1,12]
contributes no date; two-digit years are expanded with the prefix "20". -/
theorem c6_date_extraction :
    extract_date "27/10/2025" = (some "2025-10-27", 3/5) ∧
    extract_date "Fecha: 27/10/2025" = (some "2025-10-27", 4/5) ∧
    extract_date "45/10/2025" = (none, 0) ∧
    extract_date "31/13/2025" = (none, 0) ∧
    extract_date "27/10/25" = (some "2025-10-27", 3/5) ∧
    (∀ (st : Option String × ℚ) (d m y : String) (b : Bool),
      ¬ (1 ≤ natOfDigits d.toList ∧ natOfDigits d.toList ≤ 31 ∧
         1 ≤ natOfDigits m.toList ∧ natOfDigits m.toList ≤ 12) →
      dateStep st ((d, m, y), b) = st) := by
  refine ⟨ed_dmy, ed_fecha, ed_day45, ed_month13, ed_yy, ?_⟩
  intro st d m y b h
  unfold dateStep
  exact if_neg (fun hc => h ((dateValidB_iff d m).mp hc))

/-- Claim C6 witness: the rejection component applied to the out-of-range
day 45. -/
theorem c6_witness :
    dateStep ((none : Option String), (0 : ℚ)) (("45", "10", "2025"), false) = (none, 0) :=
  c6_date_extraction.2.2.2.2.2 ((none : Option String), (0 : ℚ)) "45" "10" "2025" false
    (by decide)

/-- Claim C7 (code bug evaluation): on the Y-M-D transcript "2025-10-27"
the extractor returns "2027-10-25", not "2025-10-27" — the D/M/Y pattern
matches the substring "25-10-27", and the Y-M-D pattern's groups are
unpacked as day, month, year so it can never parse a four-digit-year
date. -/
theorem c7_code_eval :
    extract_date "2025-10-27" = (some "2027-10-25", 3/5) ∧
    ¬ (extract_date "2025-10-27").1 = some "2025-10-27" := by
  refine ⟨ed_ymd, ?_⟩
  intro h
  rw [ed_ymd] at h
  exact absurd (Option.some.inj h) (by decide)

/-- Claim C8: an image whose byte length exceeds the configured maximum
fails at the validation gate with the size error, the pipeline reports a
(wrapped) failure carrying that message, and the vision client is never
invoked. -/
theorem c8_gate_before_vision (maxMB : Nat) (dec : List Nat → Bool)
    (vision : List Nat → PyResult String) (jp : String → Option StructuredPayload)
    (img : List Nat) (ttype classification : String)
    (h : maxMB * 1024 * 1024 < img.length) :
    validate_image maxMB dec img =
      PyResult.error ⟨"IMAGE_SIZE_ERROR", "Imagen demasiado grande"⟩ ∧
    process_receipt_image maxMB dec vision jp img ttype classification =
      (PyResult.error
        ⟨"OCR_PROCESSING_ERROR", "Error procesando imagen: Imagen demasiado grande"⟩,
       false) := by
  have hv : validate_image maxMB dec img =
      PyResult.error ⟨"IMAGE_SIZE_ERROR", "Imagen demasiado grande"⟩ := by
    unfold validate_image
    rw [if_pos h]
  refine ⟨hv, ?_⟩
  unfold process_receipt_image
  rw [hv]
  rfl

/-- Claim C8 witness: a one-byte image against a zero-megabyte limit. -/
theorem c8_witness :
    validate_image 0 (fun _ => true) [0] =
      PyResult.error ⟨"IMAGE_SIZE_ERROR", "Imagen demasiado grande"⟩ ∧
    process_receipt_image 0 (fun _ => true) (fun _ => PyResult.ok "") (fun _ => none)
        [0] "expense" "personal" =
      (PyResult.error
        ⟨"OCR_PROCESSING_ERROR", "Error procesando imagen: Imagen demasiado grande"⟩,
       false) :=
  c8_gate_before_vision 0 (fun _ => true) (fun _ => PyResult.ok "") (fun _ => none)
    [0] "expense" "personal" (by decide)

/-- Claim C9 (code bug evaluation): the endpoint's declared-content-type
gate accepts "image/gif", which is not in the configured JPEG/PNG/WEBP
allow-list — the configured allow-list is never enforced. -/
theorem c9_code_eval :
    content_type_accepted (some "image/gif") = true ∧
    ¬ ("image/gif" ∈ OCR_ALLOWED_FORMATS) := by
  exact ⟨by decide, by decide⟩

/-- Claim C10: day and month are validated independently, so the
non-calendar date "31/02/2025" extracts as "2025-02-31" with positive
confidence 0.6. -/
theorem c10_invalid_calendar_date :
    extract_date "31/02/2025" = (some "2025-02-31", 3/5) :=
  ed_feb31

end CC
